import Mathlib

/-!
Verification of the Shazale backend's core logic (src/core/views.py,
src/core/models.py): the result-merging algorithm (`_combine_results`),
the provider-resolution fallback loop (`_get_providers`), the upload
validation and persistence flow (`UploadView.post`), and the fingerprint
gate (`_process_audio`).

Python dictionaries carrying result records are shallowly embedded as the
structure `SR`; a missing key is `none` and an empty string is `some ""`
(both are falsy in the source, captured by `pyTruthy`).  List inputs that
may not be Python lists are `Option (List Item)`, and list elements that
may not be dictionaries are `Item`.  External HTTP traffic is an explicit
environment argument.
-/

namespace Shazale

/-- Python truthiness of an optional string: `None` and `""` are falsy. -/
def pyTruthy : Option String → Bool
  | none => false
  | some s => !(s == "")

/-- Whether the character list `sub` occurs as a leading run of `s`. -/
def leadMatch : List Char → List Char → Bool
  | [], _ => true
  | _ :: _, [] => false
  | a :: as, b :: bs => a == b && leadMatch as bs

/-- Whether the character list `sub` occurs contiguously anywhere in `s`. -/
def hasSubAux (sub : List Char) : List Char → Bool
  | [] => leadMatch sub []
  | c :: t => leadMatch sub (c :: t) || hasSubAux sub t

/-- Python's `sub in s` substring test on strings. -/
def strHasSub (s sub : String) : Bool := hasSubAux sub.toList s.toList

/-- ASCII lowercasing of one character, as in Python's `str.lower` on the
ASCII range (the source only matches ASCII provider names and titles). -/
def charLower (c : Char) : Char :=
  if 65 ≤ c.toNat ∧ c.toNat ≤ 90 then Char.ofNat (c.toNat + 32) else c

/-- Python's `str.lower`. -/
def pyLower (s : String) : String := String.mk (s.toList.map charLower)

/-- A whitespace character for Python's `str.strip`. -/
def isWS (c : Char) : Bool :=
  c == ' ' || c == '\t' || c == '\n' || c == '\r'

/-- Python's `str.strip`: drop leading and trailing whitespace. -/
def pyStrip (s : String) : String :=
  String.mk (((s.toList.dropWhile isWS).reverse.dropWhile isWS).reverse)

/-- Python's `str.startswith`. -/
def pyStartsWith (s pre : String) : Bool := leadMatch pre.toList s.toList

/-- Python's `str.endswith`. -/
def pyEndsWith (s suf : String) : Bool :=
  leadMatch suf.toList.reverse s.toList.reverse

/-- One result record: the dictionary fields read or written by
`_combine_results` and the persistence loop of `UploadView.post`
(`title`, `url`, `thumbnail_url`).  `none` models an absent key. -/
structure SR where
  title : Option String
  url : Option String
  thumbnail_url : Option String
  deriving DecidableEq

/-- One element of a result list: either a dictionary or some other
Python value (on which `.get` raises `AttributeError`). -/
inductive Item
  | dict (r : SR)
  | nonDict
  deriving DecidableEq

/-- The placeholder thumbnail of `_combine_results` (views.py line 281). -/
def default_thumbnail : String :=
  "https://via.placeholder.com/500x750/cccccc/000000?text=No+Image"

/-- Line 290/302: `not result.get('thumbnail_url') or
result['thumbnail_url'].endswith("None")`. -/
def badThumb : Option String → Bool
  | none => true
  | some s => s == "" || pyEndsWith s ("None")

/-- Thumbnail substitution applied to a record (lines 290-291, 302-303). -/
def fixThumb (r : SR) : SR :=
  if badThumb r.thumbnail_url then { r with thumbnail_url := some default_thumbnail }
  else r

/-- Thumbnail substitution lifted to list elements (a non-dictionary is
never reached by the substitution without raising). -/
def fixItem : Item → Item
  | .dict r => .dict (fixThumb r)
  | .nonDict => .nonDict

/-- Title normalisation of `_combine_results`: `.lower().strip()`
(lines 294, 300). -/
def normTitle (t : String) : String := pyStrip (pyLower t)

/-- Outcome of the first loop of `_combine_results` (lines 289-292): `ok`
carries `combined` after the loop; `exc` is the `AttributeError` raised by
`result.get` on a non-dictionary, carrying the input list as mutated so
far (the records already visited keep their substituted thumbnails), which
is what the `except` handler at line 308-310 returns. -/
inductive YtPass
  | ok (combined : List Item)
  | exc (mutated : List Item)
  deriving DecidableEq

/-- The first loop of `_combine_results` (lines 289-292). -/
def ytLoop : List Item → YtPass
  | [] => .ok []
  | .nonDict :: rest => .exc (.nonDict :: rest)
  | .dict r :: rest =>
    match ytLoop rest with
    | .ok c => .ok (.dict (fixThumb r) :: c)
    | .exc m => .exc (.dict (fixThumb r) :: m)

/-- The contribution of one first-list element to `youtube_titles`
(line 294-295): only dictionaries with a truthy title contribute. -/
def titleKey : Item → Option String
  | .dict r =>
    match r.title with
    | some t => if t == "" then none else some (normTitle t)
    | none => none
  | .nonDict => none

/-- The set comprehension `youtube_titles` (lines 294-295), as a list. -/
def seenTitles (ys : List Item) : List String := ys.filterMap titleKey

/-- The second loop of `_combine_results` (lines 297-305): skip
non-dictionaries and falsy titles, skip titles already seen, otherwise
substitute the thumbnail, append, and record the normalised title. -/
def tmdbLoop : List Item → List String → List Item
  | [], _ => []
  | .nonDict :: rest, seen => tmdbLoop rest seen
  | .dict r :: rest, seen =>
    match r.title with
    | none => tmdbLoop rest seen
    | some t =>
      if t == "" then tmdbLoop rest seen
      else if seen.contains (normTitle t) then tmdbLoop rest seen
      else .dict (fixThumb r) :: tmdbLoop rest (normTitle t :: seen)

/-- The body of `_combine_results` on two genuine lists (lines 289-310,
including the `except` path triggered by a non-dictionary first-list
element). -/
def combineLists (ys ts : List Item) : List Item :=
  match ytLoop ys with
  | .exc m => m
  | .ok c => c ++ tmdbLoop ts (seenTitles ys)

/-- `_combine_results` (lines 279-310).  `none` models an argument that is
not a Python list; line 285-287 then returns the first argument when it is
a list and `[]` otherwise. -/
def combine : Option (List Item) → Option (List Item) → List Item
  | some ys, some ts => combineLists ys ts
  | some ys, none => ys
  | none, _ => []

/-- A record is well formed when its title key is present and non-empty. -/
def wfRec (r : SR) : Bool :=
  match r.title with
  | some t => !(t == "")
  | none => false

/-- A list element is well formed when it is a well-formed dictionary. -/
def wfItem : Item → Bool
  | .dict r => wfRec r
  | .nonDict => false

/-! ## The merge algorithm as worded by the specification (§4.2)

These definitions follow the spec's words, to be compared with
`combineLists` above, which is translated from the source. -/

/-- Spec §4.2: "normalize title by lowercasing and trimming whitespace". -/
def specNorm (t : String) : String := pyStrip (pyLower t)

/-- Spec §4.2: a thumbnail value is missing/invalid when absent, empty, or
(edge case) when it "ends with the literal text None". -/
def specThumbMissing : Option String → Bool
  | none => true
  | some s => s == "" || pyEndsWith s ("None")

/-- Spec §4.2: "substituting a placeholder thumbnail for any
missing/invalid thumbnail value". -/
def specSub (r : SR) : SR :=
  if specThumbMissing r.thumbnail_url then { r with thumbnail_url := some default_thumbnail }
  else r

/-- Spec §4.2: "append records from the second sequence whose normalized
title is not already seen ... and add each appended title to the seen set
(first-occurrence-wins)". -/
def specAppend : List SR → List String → List SR
  | [], _ => []
  | r :: rest, seen =>
    let nt := specNorm (r.title.getD (""))
    if seen.contains nt then specAppend rest seen
    else specSub r :: specAppend rest (nt :: seen)

/-- Spec §4.2: "Take the entire first sequence as-is (after substituting a
placeholder thumbnail ...), building a set of seen normalized titles",
then append the unseen records of the second sequence. -/
def specMerge (first second : List SR) : List SR :=
  first.map specSub ++
    specAppend second (first.map (fun r => specNorm (r.title.getD (""))))

/-! ## Provider resolution: `_get_providers` (views.py lines 231-277) -/

/-- The five provider slots of `provider_urls` (lines 237-243): the four
named platform slots plus the generic watch-page slot. -/
structure ProviderUrls where
  netflix : Option String
  prime : Option String
  hulu : Option String
  disney : Option String
  tmdb_watch : Option String
  deriving DecidableEq

/-- The initial `provider_urls` dictionary: every slot `None`. -/
def initProviders : ProviderUrls := ⟨none, none, none, none, none⟩

/-- One of the four named platform slots. -/
inductive Slot
  | netflix
  | prime
  | hulu
  | disney
  deriving DecidableEq

/-- The value held by a named platform slot. -/
def slotVal : Slot → ProviderUrls → Option String
  | .netflix, p => p.netflix
  | .prime, p => p.prime
  | .hulu, p => p.hulu
  | .disney, p => p.disney

/-- What one region's provider query yields: a network failure (the
`except requests.RequestException` path, line 273), a response whose
`results` mapping lacks that exact region key (line 253), or the region's
data — its generic watch link (`"link"`, possibly null) and the provider
names of its `flatrate` list. -/
inductive RegionFetch
  | err
  | noData
  | data (link : Option String) (flatrate : List String)
  deriving DecidableEq

/-- One `flatrate` entry (lines 260-269): lowercase the provider name and
assign the first matching unfilled named slot to the current generic
watch link, via Python's `if`/`elif` chain. -/
def assignProvider (p : ProviderUrls) (name : String) : ProviderUrls :=
  let n := pyLower name
  if strHasSub n ("netflix") && !(pyTruthy p.netflix) then { p with netflix := p.tmdb_watch }
  else if (strHasSub n ("prime") || strHasSub n ("amazon")) && !(pyTruthy p.prime) then
    { p with prime := p.tmdb_watch }
  else if strHasSub n ("hulu") && !(pyTruthy p.hulu) then { p with hulu := p.tmdb_watch }
  else if strHasSub n ("disney") && !(pyTruthy p.disney) then { p with disney := p.tmdb_watch }
  else p

/-- The `for provider in flatrate` loop (lines 260-269). -/
def processFlatrate : List String → ProviderUrls → ProviderUrls
  | [], p => p
  | n :: rest, p => processFlatrate rest (assignProvider p n)

/-- Line 271: `any(url for key, url in provider_urls.items() if key !=
'tmdb_watch')` — some named slot holds a truthy value. -/
def anyNamed (p : ProviderUrls) : Bool :=
  pyTruthy p.netflix || pyTruthy p.prime || pyTruthy p.hulu || pyTruthy p.disney

/-- One iteration of the region loop body (lines 246-275): the updated
state and whether the `break` at line 272 fires.  On `err` or `noData`
the state is unchanged and iteration continues; on data the generic slot
is overwritten, the flatrate is scanned, and the loop breaks iff a named
slot is now truthy. -/
def regionStep (env : String → RegionFetch) (reg : String) (p : ProviderUrls) :
    ProviderUrls × Bool :=
  match env reg with
  | .err => (p, false)
  | .noData => (p, false)
  | .data link fr =>
    let p2 := processFlatrate fr { p with tmdb_watch := link }
    (p2, anyNamed p2)

/-- The `for reg in fallback_regions` loop (lines 245-275). -/
def getProvidersLoop (env : String → RegionFetch) : List String → ProviderUrls → ProviderUrls
  | [], p => p
  | reg :: rest, p =>
    let s := regionStep env reg p
    if s.2 then s.1 else getProvidersLoop env rest s.1

/-- Line 236: `fallback_regions = [region, "US", "GB", "IN"]`. -/
def fallback_regions (region : String) : List String := [region, "US", "GB", "IN"]

/-- `_get_providers` (lines 231-277), with the HTTP interaction for each
region abstracted as the environment `env`. -/
def get_providers (env : String → RegionFetch) (region : String) : ProviderUrls :=
  getProvidersLoop env (fallback_regions region) initProviders

/-! ## Fingerprinting: `_process_audio` (lines 100-125) and the
recognition gate of `post` (lines 42-44) -/

/-- The fingerprint service's best match (the `result` value's fields
read downstream). -/
structure AuddMatch where
  title : Option String
  artist : Option String
  deriving DecidableEq

/-- The JSON body returned by the fingerprint service: its `status` field
and its `result` key (`none` = key absent, `some none` = null). -/
structure AuddJson where
  status : Option String
  result : Option (Option AuddMatch)
  deriving DecidableEq

/-- The raw outcome of the HTTP call to the fingerprint service: a raised
request exception, or a status code with a JSON body. -/
inductive ServiceResp
  | netError
  | http (code : Nat) (body : AuddJson)

/-- `_process_audio` (lines 100-125): return the parsed body only when
the HTTP status is 200, the body's `status` is "success" and the `result`
key is present; otherwise `None`. -/
def process_audio : ServiceResp → Option AuddJson
  | .netError => none
  | .http code body =>
    if code = 200 then
      if body.status = some ("success") ∧ body.result ≠ none then some body else none
    else none

/-- The gate at line 42: `not recognition_result or 'result' not in
recognition_result or recognition_result['result'] is None`. -/
def recognitionFailed : Option AuddJson → Bool
  | none => true
  | some d =>
    match d.result with
    | none => true
    | some none => true
    | some (some _) => false

/-! ## The upload endpoint: `UploadView.post` (lines 14-98) and the
persistence models (models.py) -/

/-- The uploaded file as seen by validation: its MIME type and size. -/
structure UploadFile where
  content_type : String
  size : Nat
  deriving DecidableEq

/-- Outcome of the validation block (lines 16-31). -/
inductive ValidationOutcome
  | rejected (code : Nat) (msg : String)
  | accepted
  deriving DecidableEq

/-- The validation block of `post` (lines 16-31): file present, MIME type
starting with `audio/`, size at most `10 * 1024 * 1024` bytes. -/
def validate : Option UploadFile → ValidationOutcome
  | none => .rejected 400 ("No file uploaded")
  | some f =>
    if !(pyStartsWith f.content_type ("audio/")) then
      .rejected 400 ("File must be an audio file")
    else if f.size > 10 * 1024 * 1024 then
      .rejected 400 ("File size must be less than 10MB")
    else .accepted

/-- One persisted `AudioSearch` row (models.py lines 27-34): its
`is_processed` flag, nullable `processing_time`, and the `SearchResult`
rows attached through the many-to-many relation. -/
structure AudioSearchRec where
  is_processed : Bool
  processing_time : Option Nat
  attached : List SR
  deriving DecidableEq

/-- The persisted state touched by one request: the `AudioSearch` rows
and the `SearchResult` rows. -/
structure DBState where
  audioSearches : List AudioSearchRec
  searchResults : List SR
  deriving DecidableEq

/-- The HTTP response of `post`: an error with status and message, or the
200 payload (processing time and the persisted results echoed back). -/
inductive PostResponse
  | err (code : Nat) (msg : String)
  | ok (processing_time : Nat) (results : List SR)
  deriving DecidableEq

/-- A response paired with the database state after the request. -/
structure PostOutcome where
  resp : PostResponse
  db : DBState
  deriving DecidableEq

/-- The persistence loop (lines 56-64): records whose `url` is falsy are
skipped; a non-dictionary raises (`True` in the second component), ending
the loop with the earlier rows already created. -/
def saveLoop : List Item → List SR × Bool
  | [] => ([], false)
  | .nonDict :: _ => ([], true)
  | .dict r :: rest =>
    if pyTruthy r.url then ((r :: (saveLoop rest).1, (saveLoop rest).2))
    else saveLoop rest

/-- The external world of one request: the fingerprint service's
response, the lists produced by `_get_youtube_results` and
`_get_tmdb_streaming_availability` (both always return lists; their HTTP
traffic is not modelled further), and the measured elapsed time. -/
structure PostEnv where
  fingerResp : ServiceResp
  ytResults : List Item
  tmdbResults : List Item
  elapsed : Nat

/-- `UploadView.post` (lines 14-98): validate, create the `AudioSearch`
row, gate on recognition, merge, persist (dropping url-less records), and
either answer 200 or fall to the top-level `except` with a 500.  The
`AudioSearch` row is created before any external call and is never
deleted; it is marked processed only on the success path. -/
def post (file : Option UploadFile) (env : PostEnv) (db0 : DBState) : PostOutcome :=
  match validate file with
  | .rejected code msg => ⟨.err code msg, db0⟩
  | .accepted =>
    let db1 : DBState := ⟨db0.audioSearches ++ [⟨false, none, []⟩], db0.searchResults⟩
    if recognitionFailed (process_audio env.fingerResp) then
      ⟨.err 500 ("Audio recognition failed or no result found"), db1⟩
    else
      let combined := combine (some env.ytResults) (some env.tmdbResults)
      let sv := saveLoop combined
      if sv.2 then
        ⟨.err 500 ("Processing failed"),
         ⟨db0.audioSearches ++ [⟨false, none, sv.1⟩], db0.searchResults ++ sv.1⟩⟩
      else
        ⟨.ok env.elapsed sv.1,
         ⟨db0.audioSearches ++ [⟨true, some env.elapsed, sv.1⟩], db0.searchResults ++ sv.1⟩⟩

/-! ## Concrete fixtures used to instantiate the theorems -/

/-- An environment whose fingerprint call raises a request exception. -/
def env0 : PostEnv := ⟨ServiceResp.netError, [], [], 0⟩

/-- An empty database. -/
def db00 : DBState := ⟨[], []⟩

/-- A provider environment: region `R1` has a Netflix flatrate entry,
region `R3` has data but an empty flatrate, all others lack data. -/
def envW : String → RegionFetch :=
  fun r =>
    if r == ("R1") then RegionFetch.data (some ("L")) [("Netflix")]
    else if r == ("R3") then RegionFetch.data (some ("L2")) []
    else RegionFetch.noData

/-- A first list whose single title carries trailing whitespace. -/
def c1rs : List SR := [⟨some ("Foo "), some ("u1"), some ("t1")⟩]

/-- A second list whose first title collides with `"Foo "` after
normalisation and whose second is fresh. -/
def c1ss : List SR :=
  [⟨some ("foo"), some ("u2"), none⟩, ⟨some ("Bar"), some ("u3"), some ("t3")⟩]

/-- A well-formed record whose thumbnail key is absent. -/
def cexThumbRec : SR := ⟨some ("A"), some ("u"), none⟩

/-- A well-formed singleton list with a valid thumbnail. -/
def wl : List SR := [⟨some ("A"), some ("u"), some ("th")⟩]

/-- A well-formed item for the malformed-input counterexample. -/
def goodItem : Item := Item.dict ⟨some ("T"), some ("u"), some ("th")⟩

/-- A merged list with one url-carrying and one url-less record. -/
def combined0 : List Item :=
  [Item.dict ⟨some ("T"), some ("u"), some ("th")⟩,
   Item.dict ⟨some ("B"), none, some ("th")⟩]

/-! ## Helper lemmas -/

/-- The spec's placeholder substitution coincides with the source's
definitionally. -/
lemma specSub_eq_fixThumb : specSub = fixThumb := rfl

/-- The spec's title normalisation coincides with the source's
definitionally. -/
lemma specNorm_eq_normTitle : specNorm = normTitle := rfl

/-- A well-formed record has a present, non-empty title. -/
lemma wfRec_elim {r : SR} (h : wfRec r = true) :
    ∃ t, r.title = some t ∧ t ≠ "" := by
  cases ht : r.title with
  | none => simp [wfRec, ht] at h
  | some t =>
    refine ⟨t, rfl, ?_⟩
    simpa [wfRec, ht] using h

/-- On a list of dictionaries the first loop never raises and substitutes
every thumbnail. -/
lemma ytLoop_map_dict (rs : List SR) :
    ytLoop (rs.map Item.dict) = .ok (rs.map (fun r => Item.dict (fixThumb r))) := by
  induction rs with
  | nil => rfl
  | cons r rest ih => simp [ytLoop, ih]

/-- On well-formed records the seen set is exactly the list of normalised
titles of the first list. -/
lemma seenTitles_map_dict (rs : List SR) (h : ∀ r ∈ rs, wfRec r = true) :
    seenTitles (rs.map Item.dict) = rs.map (fun r => specNorm (r.title.getD (""))) := by
  induction rs with
  | nil => rfl
  | cons r rest ih =>
    obtain ⟨t, ht, hne⟩ := wfRec_elim (h r (by simp))
    have ihh := ih (fun q hq => h q (by simp [hq]))
    simp [seenTitles, titleKey, ht, hne, specNorm_eq_normTitle] at ihh ⊢
    exact ihh

/-- On well-formed records the second loop is the spec's append pass. -/
lemma tmdbLoop_map_dict (ss : List SR) :
    ∀ seen, (∀ r ∈ ss, wfRec r = true) →
      tmdbLoop (ss.map Item.dict) seen = (specAppend ss seen).map Item.dict := by
  induction ss with
  | nil => intro seen _; rfl
  | cons r rest ih =>
    intro seen h
    obtain ⟨t, ht, hne⟩ := wfRec_elim (h r (by simp))
    have hr := fun q hq => h q (List.mem_cons_of_mem r hq)
    by_cases hc : normTitle t ∈ seen
    · simp [tmdbLoop, specAppend, ht, hne, hc, specNorm_eq_normTitle, ih seen hr]
    · simp [tmdbLoop, specAppend, ht, hne, hc, specNorm_eq_normTitle,
        specSub_eq_fixThumb, ih (normTitle t :: seen) hr]

/-- List membership gives a `true` result from `List.contains`. -/
lemma contains_of_mem {l : List String} {a : String} (h : a ∈ l) :
    l.contains a = true := by
  simpa using h

/-- Every truthy title of a first-list dictionary lands in the seen set. -/
lemma seenTitles_contains (ys : List Item) (r : SR) (t : String)
    (hm : Item.dict r ∈ ys) (ht : r.title = some t) (hne : t ≠ "") :
    (seenTitles ys).contains (normTitle t) = true := by
  refine contains_of_mem ?_
  unfold seenTitles
  refine List.mem_filterMap.mpr ⟨Item.dict r, hm, ?_⟩
  simp [titleKey, ht, hne]

/-- The second loop appends nothing when every truthy second-list title is
already in the seen set. -/
lemma tmdbLoop_nil_of_seen (ss : List Item) (seen : List String)
    (h : ∀ r t, Item.dict r ∈ ss → r.title = some t → t ≠ "" →
      seen.contains (normTitle t) = true) :
    tmdbLoop ss seen = [] := by
  induction ss with
  | nil => rfl
  | cons it rest ih =>
    have hrest : ∀ r t, Item.dict r ∈ rest → r.title = some t → t ≠ "" →
        seen.contains (normTitle t) = true :=
      fun r t hm => h r t (List.mem_cons_of_mem it hm)
    cases it with
    | nonDict => simpa [tmdbLoop] using ih hrest
    | dict r =>
      cases ht : r.title with
      | none => simpa [tmdbLoop, ht] using ih hrest
      | some t =>
        by_cases he : t = ""
        · simp [tmdbLoop, ht, he]
          exact ih hrest
        · have hc : normTitle t ∈ seen := by
            simpa using h r t (List.mem_cons_self _ _) ht he
          simp [tmdbLoop, ht, he, hc]
          exact ih hrest

/-- A truthy named slot survives one flatrate entry unchanged. -/
lemma slotVal_assignProvider (p : ProviderUrls) (n : String) (s : Slot)
    (h : pyTruthy (slotVal s p) = true) :
    slotVal s (assignProvider p n) = slotVal s p := by
  cases s <;>
    (simp only [assignProvider, slotVal] at h ⊢; split_ifs <;> simp_all [pyTruthy, slotVal])

/-- A truthy named slot survives the whole flatrate scan unchanged. -/
lemma slotVal_processFlatrate (fr : List String) :
    ∀ (p : ProviderUrls) (s : Slot), pyTruthy (slotVal s p) = true →
      slotVal s (processFlatrate fr p) = slotVal s p := by
  induction fr with
  | nil => intro p s _; rfl
  | cons n rest ih =>
    intro p s h
    have h1 := slotVal_assignProvider p n s h
    have h2 : pyTruthy (slotVal s (assignProvider p n)) = true := by rw [h1]; exact h
    calc slotVal s (processFlatrate (n :: rest) p)
        = slotVal s (processFlatrate rest (assignProvider p n)) := rfl
      _ = slotVal s (assignProvider p n) := ih _ s h2
      _ = slotVal s p := h1

/-- Overwriting the generic watch slot leaves every named slot alone. -/
lemma slotVal_watch (p : ProviderUrls) (l : Option String) (s : Slot) :
    slotVal s { p with tmdb_watch := l } = slotVal s p := by
  cases s <;> rfl

/-- A truthy named slot survives one whole region iteration unchanged. -/
lemma slotVal_regionStep (env : String → RegionFetch) (reg : String)
    (p : ProviderUrls) (s : Slot) (h : pyTruthy (slotVal s p) = true) :
    slotVal s (regionStep env reg p).1 = slotVal s p := by
  unfold regionStep
  cases env reg with
  | err => rfl
  | noData => rfl
  | data link fr =>
    have hw : pyTruthy (slotVal s { p with tmdb_watch := link }) = true := by
      rw [slotVal_watch]; exact h
    have := slotVal_processFlatrate fr { p with tmdb_watch := link } s hw
    simpa [slotVal_watch] using this

/-! ## Claims C2 and C3: provider resolution -/

/-- C2: for every execution of the provider-resolution fallback loop,
once one of the four named platform slots (netflix, prime, hulu, disney)
holds a truthy value — the source's notion of a filled slot, tested by `not
provider_urls[...]` — no later, lower-priority region iteration ever
overwrites that slot's value.  The statement quantifies over every
intermediate state `p` and remaining region list `regs`, so it covers the
fallback order `[preferred, US, GB, IN]` of `_get_providers`. -/
theorem c2_first_match_wins (env : String → RegionFetch) (regs : List String) :
    ∀ (p : ProviderUrls) (s : Slot), pyTruthy (slotVal s p) = true →
      slotVal s (getProvidersLoop env regs p) = slotVal s p := by
  induction regs with
  | nil => intro p s _; rfl
  | cons reg rest ih =>
    intro p s h
    have hstep := slotVal_regionStep env reg p s h
    have hst : pyTruthy (slotVal s (regionStep env reg p).1) = true := by
      rw [hstep]; exact h
    simp only [getProvidersLoop]
    by_cases hb : (regionStep env reg p).2 = true
    · simp only [hb, if_true]
      exact hstep
    · simp only [hb, if_false, Bool.not_eq_true] at *
      rw [if_neg (by simp [hb]), ih _ s hst, hstep]

/-- C2 witness: a netflix slot filled with `"x"` is untouched by a full
pass over the fallback regions. -/
theorem c2_witness :
    slotVal Slot.netflix
        (getProvidersLoop (fun _ => RegionFetch.noData) (fallback_regions ("US"))
          ⟨some ("x"), none, none, none, none⟩)
      = slotVal Slot.netflix ⟨some ("x"), none, none, none, none⟩ :=
  c2_first_match_wins (fun _ => RegionFetch.noData) (fallback_regions ("US"))
    ⟨some ("x"), none, none, none, none⟩ Slot.netflix (by decide)

/-- C3: the region loop stops as soon as a region iteration leaves at
least one named slot truthy (first conjunct); a region that fills only the
generic watch slot does not stop the iteration (second conjunct, where
`anyNamed` is false after the iteration); and a region whose response
lacks data for that exact region code, or whose query raises a network
error, is skipped with the state unchanged (third conjunct). -/
theorem c3_region_iteration (env : String → RegionFetch) (reg : String)
    (rest : List String) (p : ProviderUrls) (link : Option String) (fr : List String) :
    (env reg = RegionFetch.data link fr →
      anyNamed (processFlatrate fr { p with tmdb_watch := link }) = true →
      getProvidersLoop env (reg :: rest) p = processFlatrate fr { p with tmdb_watch := link }) ∧
    (env reg = RegionFetch.data link fr →
      anyNamed (processFlatrate fr { p with tmdb_watch := link }) = false →
      getProvidersLoop env (reg :: rest) p =
        getProvidersLoop env rest (processFlatrate fr { p with tmdb_watch := link })) ∧
    ((env reg = RegionFetch.err ∨ env reg = RegionFetch.noData) →
      getProvidersLoop env (reg :: rest) p = getProvidersLoop env rest p) := by
  refine ⟨?_, ?_, ?_⟩
  · intro he ha
    simp [getProvidersLoop, regionStep, he, ha]
  · intro he ha
    simp [getProvidersLoop, regionStep, he, ha]
  · rintro (he | he) <;> simp [getProvidersLoop, regionStep, he]

/-- C3 witness: with `envW`, a Netflix-bearing region stops the loop, a
data region with an empty flatrate does not, and a data-less region is
skipped. -/
theorem c3_witness :
    (getProvidersLoop envW [("R1"), ("X")] initProviders
      = processFlatrate [("Netflix")] { initProviders with tmdb_watch := some ("L") }) ∧
    (getProvidersLoop envW [("R3"), ("X")] initProviders
      = getProvidersLoop envW [("X")]
          (processFlatrate [] { initProviders with tmdb_watch := some ("L2") })) ∧
    (getProvidersLoop envW [("X"), ("R1")] initProviders
      = getProvidersLoop envW [("R1")] initProviders) := by
  refine ⟨?_, ?_, ?_⟩
  · exact (c3_region_iteration envW ("R1") [("X")] initProviders (some ("L"))
      [("Netflix")]).1 (by decide) (by decide)
  · exact (c3_region_iteration envW ("R3") [("X")] initProviders (some ("L2")) []).2.1
      (by decide) (by decide)
  · exact (c3_region_iteration envW ("X") [("R1")] initProviders none []).2.2
      (Or.inr (by decide))

/-! ## Claims C1, C4 and C5: the merge -/

/-- C1: on well-formed lists of records the merge is order-preserving and
returns the entire first list (with the placeholder substituted for every
missing or invalid thumbnail) followed by those second-list records whose
lowercased, whitespace-trimmed title is not yet in the seen set, each such
title being added to the seen set first-occurrence-wins — i.e. the source's
`_combine_results` coincides with the spec-worded `specMerge`. -/
theorem c1_combine_refines_spec (rs ss : List SR)
    (h1 : ∀ r ∈ rs, wfRec r = true) (h2 : ∀ r ∈ ss, wfRec r = true) :
    combineLists (rs.map Item.dict) (ss.map Item.dict) = (specMerge rs ss).map Item.dict := by
  unfold combineLists
  rw [ytLoop_map_dict]
  rw [seenTitles_map_dict rs h1, tmdbLoop_map_dict ss _ h2]
  simp [specMerge, List.map_map, Function.comp_def, specSub_eq_fixThumb]

/-- C1 witness: `"Foo "` in the first list suppresses `"foo"` from the
second, while `"Bar"` is appended. -/
theorem c1_witness :
    combineLists (c1rs.map Item.dict) (c1ss.map Item.dict) = (specMerge c1rs c1ss).map Item.dict :=
  c1_combine_refines_spec c1rs c1ss (by decide) (by decide)

/-- C4 counterexample: a well-formed record whose thumbnail key is absent
gets the placeholder substituted, so self-merge does not return the
original list. -/
theorem c4_cex :
    wfItem (Item.dict cexThumbRec) = true ∧
    combineLists [Item.dict cexThumbRec] [Item.dict cexThumbRec] ≠ [Item.dict cexThumbRec] := by
  decide

/-- C4 (amended): merging a well-formed list with itself yields the
original list with the placeholder substituted for missing/invalid
thumbnails — the second copy is fully deduplicated, contributing
nothing. -/
theorem c4_self_merge (l : List SR) (_h : ∀ r ∈ l, wfRec r = true) :
    combineLists (l.map Item.dict) (l.map Item.dict) = (l.map fixThumb).map Item.dict := by
  unfold combineLists
  rw [ytLoop_map_dict]
  rw [tmdbLoop_nil_of_seen]
  · simp [List.map_map, Function.comp_def]
  · intro r t hm ht hne
    exact seenTitles_contains _ r t hm ht hne

/-- C4 witness: self-merging a list with a valid thumbnail reproduces the
list. -/
theorem c4_witness :
    combineLists (wl.map Item.dict) (wl.map Item.dict) = (wl.map fixThumb).map Item.dict :=
  c4_self_merge wl (by decide)

/-- C5 counterexample: when the first input is malformed the merge
returns the empty list, not the well-formed second sequence. -/
theorem c5_cex :
    combine none (some [goodItem]) = [] ∧ [goodItem] ≠ ([] : List Item) := by
  constructor
  · rfl
  · decide

/-- C5 (amended): if the second input is not a list (while the first is),
the first is returned unmodified; if the first input is not a list, the
empty list is returned regardless of the second. -/
theorem c5_malformed_inputs (tm : Option (List Item)) (ys : List Item) :
    combine none tm = [] ∧ combine (some ys) none = ys := by
  constructor
  · cases tm <;> rfl
  · rfl

/-! ## Claims C6-C10: persistence and the endpoint flow -/

/-- Every record surviving the persistence loop carries a truthy url. -/
lemma saveLoop_url (combined : List Item) :
    ∀ r ∈ (saveLoop combined).1, pyTruthy r.url = true := by
  induction combined with
  | nil => intro r h; simp [saveLoop] at h
  | cons it rest ih =>
    intro r h
    cases it with
    | nonDict => simp [saveLoop] at h
    | dict q =>
      by_cases hu : pyTruthy q.url = true
      · simp [saveLoop, hu] at h
        rcases h with h | h
        · subst h; exact hu
        · exact ih r h
      · simp [saveLoop, hu] at h
        exact ih r h

/-- C6: a merged record with an empty or absent url is never persisted
(first two conjuncts, over the persistence loop of `post`), and every
result echoed back by a 200 response has a truthy url (third conjunct) —
persisting zero records is permitted by construction. -/
theorem c6_url_invariant (combined : List Item) (file : Option UploadFile)
    (env : PostEnv) (db0 : DBState) :
    (∀ r ∈ (saveLoop combined).1, pyTruthy r.url = true) ∧
    (∀ r : SR, pyTruthy r.url = false → r ∉ (saveLoop combined).1) ∧
    (∀ t results, (post file env db0).resp = PostResponse.ok t results →
      ∀ r ∈ results, pyTruthy r.url = true) := by
  refine ⟨saveLoop_url combined, ?_, ?_⟩
  · intro r hu hm
    have := saveLoop_url combined r hm
    rw [this] at hu
    cases hu
  · intro t results hok r hm
    unfold post at hok
    cases hv : validate file with
    | rejected code msg =>
      rw [hv] at hok
      simp at hok
    | accepted =>
      rw [hv] at hok
      simp only [] at hok
      split at hok
      · simp at hok
      · split at hok
        · simp at hok
        · simp only [PostResponse.ok.injEq] at hok
          obtain ⟨-, hres⟩ := hok
          subst hres
          exact saveLoop_url _ r hm

/-- C6 witness: the url-carrying record is persisted, the url-less one is
not. -/
theorem c6_witness :
    pyTruthy (SR.mk (some ("T")) (some ("u")) (some ("th"))).url = true ∧
    (SR.mk (some ("B")) none (some ("th"))) ∉ (saveLoop combined0).1 := by
  constructor
  · exact (c6_url_invariant combined0 none env0 db00).1
      ⟨some ("T"), some ("u"), some ("th")⟩ (by decide)
  · exact (c6_url_invariant combined0 none env0 db00).2.1
      ⟨some ("B"), none, some ("th")⟩ (by decide)

/-- C7: validation passes iff the file is present with MIME type starting
in `audio/` and size at most 10,485,760 bytes; a missing file yields the
400 response `{"error": "No file uploaded"}`; and every failing upload is
rejected with a 400 and a reason string with the database untouched. -/
theorem c7_validation (file : Option UploadFile) (env : PostEnv) (db0 : DBState) :
    (validate file = ValidationOutcome.accepted ↔
      ∃ f, file = some f ∧ pyStartsWith f.content_type ("audio/") = true ∧
        f.size ≤ 10485760) ∧
    (file = none → post file env db0 = ⟨PostResponse.err 400 ("No file uploaded"), db0⟩) ∧
    ((¬ ∃ f, file = some f ∧ pyStartsWith f.content_type ("audio/") = true ∧
        f.size ≤ 10485760) →
      ∃ msg, post file env db0 = ⟨PostResponse.err 400 msg, db0⟩) := by
  refine ⟨?_, ?_, ?_⟩
  · cases file with
    | none => simp [validate]
    | some f =>
      constructor
      · intro h
        refine ⟨f, rfl, ?_, ?_⟩
        · by_contra hc
          have hc2 : pyStartsWith f.content_type ("audio/") = false := by
            cases hp : pyStartsWith f.content_type ("audio/")
            · rfl
            · exact absurd hp hc
          simp [validate, hc2] at h
        · by_contra hc
          have hgt : f.size > 10 * 1024 * 1024 := by omega
          by_cases hp : pyStartsWith f.content_type ("audio/") = true
          · simp [validate, hp, hgt] at h
          · simp [validate, hp] at h
      · rintro ⟨g, hg, hp, hsz⟩
        cases hg
        have hle : ¬ (f.size > 10 * 1024 * 1024) := by omega
        simp [validate, hp, hle]
  · intro h
    subst h
    rfl
  · intro hn
    cases file with
    | none => exact ⟨("No file uploaded"), rfl⟩
    | some f =>
      by_cases hp : pyStartsWith f.content_type ("audio/") = true
      · by_cases hsz : f.size ≤ 10485760
        · exact absurd ⟨f, rfl, hp, hsz⟩ hn
        · have hgt : f.size > 10 * 1024 * 1024 := by omega
          exact ⟨("File size must be less than 10MB"), by simp [post, validate, hp, hgt]⟩
      · have hc2 : pyStartsWith f.content_type ("audio/") = false := by
          cases hq : pyStartsWith f.content_type ("audio/")
          · rfl
          · exact absurd hq hp
        exact ⟨("File must be an audio file"), by simp [post, validate, hc2]⟩

/-- C7 witness: a missing file is rejected with the exact body, a 2 MB
`audio/mpeg` file passes, and a `text/plain` file is rejected with a 400
and no persistence. -/
theorem c7_witness :
    post none env0 db00 = ⟨PostResponse.err 400 ("No file uploaded"), db00⟩ ∧
    validate (some ⟨("audio/mpeg"), 2000000⟩) = ValidationOutcome.accepted ∧
    (∃ msg, post (some ⟨("text/plain"), 5⟩) env0 db00 = ⟨PostResponse.err 400 msg, db00⟩) := by
  refine ⟨(c7_validation none env0 db00).2.1 rfl, ?_, ?_⟩
  · exact (c7_validation (some ⟨("audio/mpeg"), 2000000⟩) env0 db00).1.mpr
      ⟨⟨("audio/mpeg"), 2000000⟩, rfl, by decide, by decide⟩
  · refine (c7_validation (some ⟨("text/plain"), 5⟩) env0 db00).2.2 ?_
    rintro ⟨f, hf, hs, -⟩
    cases hf
    exact absurd hs (by decide)

/-- C8: whenever the fingerprint service yields no usable match — a raised
request error, a non-200 status, a body whose `status` is not "success",
a missing `result` key, or a null `result` — the endpoint (after a valid
upload) answers with a 500 whose body contains
"Audio recognition failed". -/
theorem c8_recognition_failure (file : Option UploadFile) (env : PostEnv) (db0 : DBState)
    (hv : validate file = ValidationOutcome.accepted)
    (hr : env.fingerResp = ServiceResp.netError ∨
      ∃ code body, env.fingerResp = ServiceResp.http code body ∧
        (code ≠ 200 ∨ body.status ≠ some ("success") ∨ body.result = none ∨
          body.result = some none)) :
    ∃ msg, (post file env db0).resp = PostResponse.err 500 msg ∧
      strHasSub msg ("Audio recognition failed") = true := by
  have hfail : recognitionFailed (process_audio env.fingerResp) = true := by
    rcases hr with h | ⟨code, body, he, hcase⟩
    · rw [h]; rfl
    · rw [he]
      rcases hcase with hc | hc | hc | hc
      · simp [process_audio, recognitionFailed, hc]
      · simp [process_audio, recognitionFailed, hc]
      · simp [process_audio, recognitionFailed, hc]
      · by_cases hcode : code = 200
        · by_cases hst : body.status = some ("success")
          · simp [process_audio, recognitionFailed, hcode, hst, hc]
          · simp [process_audio, recognitionFailed, hcode, hst]
        · simp [process_audio, recognitionFailed, hcode]
  refine ⟨("Audio recognition failed or no result found"), ?_, by decide⟩
  simp [post, hv, hfail]

/-- C8 witness: after a valid upload, a fingerprint network error yields
the 500 with the expected message. -/
theorem c8_witness :
    ∃ msg, (post (some ⟨("audio/mpeg"), 2000000⟩) env0 db00).resp = PostResponse.err 500 msg ∧
      strHasSub msg ("Audio recognition failed") = true :=
  c8_recognition_failure (some ⟨("audio/mpeg"), 2000000⟩) env0 db00 (by decide) (Or.inl rfl)

/-- C10: when recognition fails after a valid upload, the request ends in
a 500 while the `AudioSearch` row created on acceptance stays persisted
with `is_processed` false, `processing_time` null and no `SearchResult`
attached, and the `SearchResult` table is untouched — no rollback. -/
theorem c10_no_rollback (file : Option UploadFile) (env : PostEnv) (db0 : DBState)
    (hv : validate file = ValidationOutcome.accepted)
    (hr : recognitionFailed (process_audio env.fingerResp) = true) :
    post file env db0 =
      ⟨PostResponse.err 500 ("Audio recognition failed or no result found"),
       ⟨db0.audioSearches ++ [⟨false, none, []⟩], db0.searchResults⟩⟩ := by
  simp [post, hv, hr]

/-- C10 witness: the concrete failing request leaves exactly the pending
`AudioSearch` row in the empty database. -/
theorem c10_witness :
    post (some ⟨("audio/mpeg"), 2000000⟩) env0 db00 =
      ⟨PostResponse.err 500 ("Audio recognition failed or no result found"),
       ⟨db00.audioSearches ++ [⟨false, none, []⟩], db00.searchResults⟩⟩ :=
  c10_no_rollback (some ⟨("audio/mpeg"), 2000000⟩) env0 db00 (by decide) (by decide)

/-- On a list of dictionaries the first loop returns `ok` with every
thumbnail substituted. -/
lemma ytLoop_allDict (ys : List Item) (h : ∀ it ∈ ys, ∃ q, it = Item.dict q) :
    ytLoop ys = .ok (ys.map fixItem) := by
  induction ys with
  | nil => rfl
  | cons it rest ih =>
    obtain ⟨q, hq⟩ := h it (by simp)
    subst hq
    simp [ytLoop, ih (fun x hx => h x (List.mem_cons_of_mem _ hx)), fixItem]

/-- A non-dictionary in the first list raises, returning the mutated
input list. -/
lemma ytLoop_exc (ys ys2 : List Item) (h : ∀ it ∈ ys, ∃ q, it = Item.dict q) :
    ytLoop (ys ++ Item.nonDict :: ys2) = .exc (ys.map fixItem ++ Item.nonDict :: ys2) := by
  induction ys with
  | nil => rfl
  | cons it rest ih =>
    obtain ⟨q, hq⟩ := h it (by simp)
    subst hq
    simp [ytLoop, ih (fun x hx => h x (List.mem_cons_of_mem _ hx)), fixItem]

/-- C9: a second-list element that is not a mapping (first conjunct) or
whose title is missing or empty (second conjunct) is dropped by the merge
even when its normalised title is not in the seen set, whereas such
records in the first list are kept: a title-less dictionary survives into
the output thumbnail-substituted (third conjunct), and a non-dictionary
survives via the exception path (fourth conjunct). -/
theorem c9_second_list_guard :
    (∀ ts seen, tmdbLoop (Item.nonDict :: ts) seen = tmdbLoop ts seen) ∧
    (∀ (r : SR) ts seen, (r.title = none ∨ r.title = some ("")) →
      tmdbLoop (Item.dict r :: ts) seen = tmdbLoop ts seen) ∧
    (∀ (r : SR) ys ts, (r.title = none ∨ r.title = some ("")) →
      (∀ it ∈ ys, ∃ q, it = Item.dict q) →
      Item.dict (fixThumb r) ∈ combineLists (ys ++ [Item.dict r]) ts) ∧
    (∀ ys ys2 ts, (∀ it ∈ ys, ∃ q, it = Item.dict q) →
      Item.nonDict ∈ combineLists (ys ++ Item.nonDict :: ys2) ts) := by
  refine ⟨?_, ?_, ?_, ?_⟩
  · intro ts seen; rfl
  · rintro r ts seen (ht | ht) <;> simp [tmdbLoop, ht]
  · rintro r ys ts ht hd
    have hall : ∀ it ∈ ys ++ [Item.dict r], ∃ q, it = Item.dict q := by
      intro it hit
      rcases List.mem_append.mp hit with h | h
      · exact hd it h
      · exact ⟨r, by simpa using h⟩
    unfold combineLists
    rw [ytLoop_allDict _ hall]
    refine List.mem_append.mpr (Or.inl ?_)
    exact List.mem_map.mpr ⟨Item.dict r, by simp, rfl⟩
  · rintro ys ys2 ts hd
    unfold combineLists
    rw [ytLoop_exc _ _ hd]
    simp

/-- C9 witness: a title-less record and an empty-titled record behave as
claimed on concrete lists. -/
theorem c9_witness :
    tmdbLoop [Item.dict ⟨none, some ("u"), none⟩] [] = tmdbLoop [] [] ∧
    Item.dict (fixThumb ⟨some (""), some ("u"), some ("th")⟩) ∈
      combineLists ([] ++ [Item.dict ⟨some (""), some ("u"), some ("th")⟩]) [] := by
  constructor
  · exact c9_second_list_guard.2.1 ⟨none, some ("u"), none⟩ [] [] (Or.inl rfl)
  · exact c9_second_list_guard.2.2.1 ⟨some (""), some ("u"), some ("th")⟩ [] []
      (Or.inr rfl) (fun it hit => absurd hit (List.not_mem_nil it))

end Shazale
